import Mathlib

/-!
Shallow embedding of the PlanetKillerSimulator impact-physics core.

Python floats are modelled as real numbers; Python `**` with a fractional
literal exponent is modelled by `Real.rpow`, with an integer literal exponent
by the monomial power; `math.pi` by `Real.pi`; `math.sqrt` by `Real.sqrt`;
`math.log10` by `Real.logb 10`; Python `int()` (truncation toward zero) by
`pyInt`. Python dicts returned by the functions are modelled as structures.
-/

namespace PlanetKiller

open Real

/-- Model of Python `str.lower` (ASCII case folding), as used by
`MeteorMaterial.get_density` in `meteor_physics.py`. -/
def str_lower (s : String) : String :=
  String.mk (s.data.map Char.toLower)

/-- `MeteorMaterial.MATERIALS` from `meteor_physics.py`: the density entry of
each material, keyed by (lower-case) material name. -/
def MATERIALS : List (String × ℝ) :=
  [("iron", 7870), ("stone", 3300), ("ice", 917), ("nickel_iron", 8000)]

/-- `MeteorMaterial.get_density` from `meteor_physics.py` (lines 35-40):
look the lower-cased name up in the registry, defaulting to the stone
density. -/
noncomputable def get_density (material_type : String) : ℝ :=
  match MATERIALS.lookup (str_lower material_type) with
  | some d => d
  | none => 3300

/-- `ImpactCalculator.calculate_mass` from `meteor_physics.py`. -/
noncomputable def calculate_mass (diameter material_density : ℝ) : ℝ :=
  let radius := diameter / 2
  let volume := (4 / 3) * π * radius ^ 3
  volume * material_density

/-- `ImpactCalculator.calculate_kinetic_energy` from `meteor_physics.py`. -/
noncomputable def calculate_kinetic_energy (mass velocity : ℝ) : ℝ :=
  0.5 * mass * velocity ^ 2

/-- `ImpactCalculator.TNT_ENERGY` (J per kiloton of TNT). -/
noncomputable def TNT_ENERGY : ℝ := 4.184e12

/-- `ImpactCalculator.energy_to_tnt_kilotons` from `meteor_physics.py`. -/
noncomputable def energy_to_tnt_kilotons (energy_joules : ℝ) : ℝ :=
  energy_joules / TNT_ENERGY

/-- `ImpactCalculator.calculate_crater_diameter` from `meteor_physics.py`. -/
noncomputable def calculate_crater_diameter (energy_joules : ℝ) : ℝ :=
  let energy_megatons := energy_joules / 4.184e15
  1800 * energy_megatons ^ (0.25 : ℝ)

/-- The dict returned by `ImpactCalculator.calculate_destruction_radius`
(and consumed by `calculate_casualties`): radii in km. -/
structure DestructionZones where
  total_destruction : ℝ
  severe_damage : ℝ
  moderate_damage : ℝ
  light_damage : ℝ
  fireball : ℝ

/-- `ImpactCalculator.calculate_destruction_radius` from `meteor_physics.py`
(lines 120-142). -/
noncomputable def calculate_destruction_radius (energy_joules : ℝ) : DestructionZones :=
  let energy_megatons := energy_joules / 4.184e15
  { total_destruction := Real.sqrt energy_megatons * 2.5
    severe_damage := Real.sqrt energy_megatons * 5.0
    moderate_damage := Real.sqrt energy_megatons * 10.0
    light_damage := Real.sqrt energy_megatons * 20.0
    fireball := energy_megatons ^ (0.4 : ℝ) * 0.5 }

/-- Python `int()` applied to a float: truncation toward zero. -/
noncomputable def pyInt (x : ℝ) : ℤ :=
  if 0 ≤ x then ⌊x⌋ else ⌈x⌉

/-- `calculate_zone_area` (local helper inside `calculate_casualties` in
`meteor_physics.py`): area of an annular zone. -/
noncomputable def calculate_zone_area (outer_radius inner_radius : ℝ) : ℝ :=
  π * (outer_radius ^ 2 - inner_radius ^ 2)

/-- The dict returned by `calculate_casualties`: per-zone death and injury
counts (Python ints) plus the three running totals. -/
structure Casualties where
  deaths_fireball : ℤ
  deaths_total_destruction : ℤ
  deaths_severe_damage : ℤ
  deaths_moderate_damage : ℤ
  deaths_light_damage : ℤ
  injuries_fireball : ℤ
  injuries_total_destruction : ℤ
  injuries_severe_damage : ℤ
  injuries_moderate_damage : ℤ
  injuries_light_damage : ℤ
  total_deaths : ℤ
  total_injuries : ℤ
  total_affected : ℤ

/-- `calculate_casualties` from `meteor_physics.py` (lines 180-251), with the
five-iteration loop over the fixed zone list unrolled. Mortality rates:
fireball 1.00, total_destruction 0.98, severe 0.70, moderate 0.30, light 0.05;
injury rates (of survivors): 0.00, 0.95, 0.85, 0.60, 0.40. -/
noncomputable def calculate_casualties (destruction_zones : DestructionZones)
    (city_density : ℝ) : Casualties :=
  let areaF := calculate_zone_area destruction_zones.fireball 0
  let popF := areaF * city_density
  let deathsF := popF * 1.00
  let injuriesF := (popF - deathsF) * 0.00
  let areaT := calculate_zone_area destruction_zones.total_destruction destruction_zones.fireball
  let popT := areaT * city_density
  let deathsT := popT * 0.98
  let injuriesT := (popT - deathsT) * 0.95
  let areaS := calculate_zone_area destruction_zones.severe_damage destruction_zones.total_destruction
  let popS := areaS * city_density
  let deathsS := popS * 0.70
  let injuriesS := (popS - deathsS) * 0.85
  let areaM := calculate_zone_area destruction_zones.moderate_damage destruction_zones.severe_damage
  let popM := areaM * city_density
  let deathsM := popM * 0.30
  let injuriesM := (popM - deathsM) * 0.60
  let areaL := calculate_zone_area destruction_zones.light_damage destruction_zones.moderate_damage
  let popL := areaL * city_density
  let deathsL := popL * 0.05
  let injuriesL := (popL - deathsL) * 0.40
  { deaths_fireball := pyInt deathsF
    deaths_total_destruction := pyInt deathsT
    deaths_severe_damage := pyInt deathsS
    deaths_moderate_damage := pyInt deathsM
    deaths_light_damage := pyInt deathsL
    injuries_fireball := pyInt injuriesF
    injuries_total_destruction := pyInt injuriesT
    injuries_severe_damage := pyInt injuriesS
    injuries_moderate_damage := pyInt injuriesM
    injuries_light_damage := pyInt injuriesL
    total_deaths := pyInt deathsF + pyInt deathsT + pyInt deathsS + pyInt deathsM + pyInt deathsL
    total_injuries := pyInt injuriesF + pyInt injuriesT + pyInt injuriesS + pyInt injuriesM + pyInt injuriesL
    total_affected := pyInt popF + pyInt popT + pyInt popS + pyInt popM + pyInt popL }

/-- The severity if-chain of `calculate_meteor_impact`
(`meteor_impact_calculator.py`, lines 141-150), as a function of the energy in
megatons. -/
noncomputable def impact_severity (energy_megatons : ℝ) : String :=
  if energy_megatons < 1 then "minor"
  else if energy_megatons < 100 then "significant"
  else if energy_megatons < 10000 then "catastrophic"
  else if energy_megatons < 100000000 then "extinction-level"
  else "planet-killer"

/-- The dict returned by `calculate_meteor_impact`
(`meteor_impact_calculator.py`), flattened: one field per computed entry of the
nested result dict (input echoes other than the mass are omitted). -/
structure ImpactResult where
  meteor_mass_kg : ℝ
  crater_diameter_km : ℝ
  crater_depth_km : ℝ
  crater_volume_km3 : ℝ
  kinetic_energy_joules : ℝ
  kinetic_energy_megatons : ℝ
  thermal_energy_joules : ℝ
  impact_temperature_kelvin : ℝ
  impact_temperature_celsius : ℝ
  fireball_radius_km : ℝ
  total_destruction_km : ℝ
  severe_damage_km : ℝ
  moderate_damage_km : ℝ
  light_damage_km : ℝ
  dust_ejected_mass_kg : ℝ
  stratosphere_dust_mass_kg : ℝ
  dust_cloud_coverage_km2 : ℝ
  affected_hemisphere : String
  impact_winter_duration_years : ℝ
  global_temperature_drop_celsius : ℝ
  severity : String
  is_extinction_event : Prop
  is_global_catastrophe : Prop

/-- `calculate_meteor_impact` from `meteor_impact_calculator.py`
(lines 10-209): the impact-physics engine. `math.radians` is expanded to
multiplication by `π / 180`. -/
noncomputable def calculate_meteor_impact (meteor_diameter meteor_velocity meteor_density
    impact_angle : ℝ) (target_surface_type : String)
    (impact_latitude _impact_longitude : ℝ) : ImpactResult :=
  let meteor_radius := meteor_diameter / 2.0
  let meteor_volume := (4.0 / 3.0) * π * meteor_radius ^ 3
  let meteor_mass := meteor_volume * meteor_density
  let kinetic_energy := 0.5 * meteor_mass * meteor_velocity ^ 2
  let energy_megatons := kinetic_energy / 4.184e15
  let angle_rad := impact_angle * (π / 180)
  let angle_correction := Real.sin angle_rad
  let target_density : ℝ :=
    if target_surface_type = "ocean" then 1025.0
    else if target_surface_type = "ice" then 917.0
    else 2500.0
  let crater_diameter :=
    2.0 * meteor_diameter ^ (0.78 : ℝ) * (meteor_velocity / 1000.0) ^ (0.44 : ℝ) * angle_correction
  let crater_depth := crater_diameter / 5.0
  let crater_volume := (π / 3.0) * (crater_diameter / 2.0) ^ 2 * crater_depth
  let thermal_energy := kinetic_energy * 0.4
  let fireball_radius := 0.28 * energy_megatons ^ (0.33 : ℝ) * 1000.0
  let fireball_radius_km := fireball_radius / 1000.0
  let impact_temperature := 5000.0 + energy_megatons ^ (0.5 : ℝ) * 500.0
  let total_destruction_radius_km := 2.0 * fireball_radius_km
  let severe_damage_radius_km := 5.0 * energy_megatons ^ (0.33 : ℝ)
  let moderate_damage_radius_km := 10.0 * energy_megatons ^ (0.33 : ℝ)
  let light_damage_radius_km := 20.0 * energy_megatons ^ (0.33 : ℝ)
  let ejecta_factor := 30.0
  let ejecta_volume := crater_volume * ejecta_factor
  let dust_ejected_mass := ejecta_volume * target_density
  let stratosphere_fraction₀ : ℝ := if energy_megatons < 100 then 0.01 else 0.1
  let stratosphere_fraction := if energy_megatons > 10000 then 0.3 else stratosphere_fraction₀
  let stratosphere_dust_mass := dust_ejected_mass * stratosphere_fraction
  let dust_coverage_km2 : ℝ :=
    if energy_megatons < 100 then energy_megatons * 10000
    else if energy_megatons < 10000 then energy_megatons * 50000
    else 510000000
  let affected_hemisphere : String :=
    if energy_megatons < 100 then "regional"
    else if energy_megatons < 10000 then (if impact_latitude > 0 then "northern" else "southern")
    else "global"
  let impact_winter_duration : ℝ :=
    if stratosphere_dust_mass < 1e12 then 0.0
    else if stratosphere_dust_mass < 1e14 then 0.5
    else if stratosphere_dust_mass < 1e15 then 2.0
    else 5.0 + Real.logb 10 (stratosphere_dust_mass / 1e15)
  let temperature_drop : ℝ :=
    if stratosphere_dust_mass < 1e12 then 0.0
    else min 25.0 (2.0 * Real.logb 10 (stratosphere_dust_mass / 1e12))
  { meteor_mass_kg := meteor_mass
    crater_diameter_km := crater_diameter / 1000.0
    crater_depth_km := crater_depth / 1000.0
    crater_volume_km3 := crater_volume / 1e9
    kinetic_energy_joules := kinetic_energy
    kinetic_energy_megatons := energy_megatons
    thermal_energy_joules := thermal_energy
    impact_temperature_kelvin := impact_temperature
    impact_temperature_celsius := impact_temperature - 273.15
    fireball_radius_km := fireball_radius_km
    total_destruction_km := total_destruction_radius_km
    severe_damage_km := severe_damage_radius_km
    moderate_damage_km := moderate_damage_radius_km
    light_damage_km := light_damage_radius_km
    dust_ejected_mass_kg := dust_ejected_mass
    stratosphere_dust_mass_kg := stratosphere_dust_mass
    dust_cloud_coverage_km2 := dust_coverage_km2
    affected_hemisphere := affected_hemisphere
    impact_winter_duration_years := impact_winter_duration
    global_temperature_drop_celsius := temperature_drop
    severity := impact_severity energy_megatons
    is_extinction_event := energy_megatons > 10000
    is_global_catastrophe := affected_hemisphere = "global" }

/-! ### Unfolding lemmas for the engine's result fields -/

theorem kinetic_energy_megatons_def (d v ρ a : ℝ) (s : String) (la lo : ℝ) :
    (calculate_meteor_impact d v ρ a s la lo).kinetic_energy_megatons
      = 0.5 * ((4.0 / 3.0) * π * (d / 2.0) ^ 3 * ρ) * v ^ 2 / 4.184e15 := rfl

theorem meteor_mass_kg_def (d v ρ a : ℝ) (s : String) (la lo : ℝ) :
    (calculate_meteor_impact d v ρ a s la lo).meteor_mass_kg
      = (4.0 / 3.0) * π * (d / 2.0) ^ 3 * ρ := rfl

theorem kinetic_energy_joules_def (d v ρ a : ℝ) (s : String) (la lo : ℝ) :
    (calculate_meteor_impact d v ρ a s la lo).kinetic_energy_joules
      = 0.5 * ((4.0 / 3.0) * π * (d / 2.0) ^ 3 * ρ) * v ^ 2 := rfl

theorem fireball_radius_km_def (d v ρ a : ℝ) (s : String) (la lo : ℝ) :
    (calculate_meteor_impact d v ρ a s la lo).fireball_radius_km
      = 0.28 * (calculate_meteor_impact d v ρ a s la lo).kinetic_energy_megatons ^ (0.33 : ℝ)
          * 1000.0 / 1000.0 := rfl

theorem total_destruction_km_def (d v ρ a : ℝ) (s : String) (la lo : ℝ) :
    (calculate_meteor_impact d v ρ a s la lo).total_destruction_km
      = 2.0 * (0.28 * (calculate_meteor_impact d v ρ a s la lo).kinetic_energy_megatons ^ (0.33 : ℝ)
          * 1000.0 / 1000.0) := rfl

theorem severe_damage_km_def (d v ρ a : ℝ) (s : String) (la lo : ℝ) :
    (calculate_meteor_impact d v ρ a s la lo).severe_damage_km
      = 5.0 * (calculate_meteor_impact d v ρ a s la lo).kinetic_energy_megatons ^ (0.33 : ℝ) := rfl

theorem moderate_damage_km_def (d v ρ a : ℝ) (s : String) (la lo : ℝ) :
    (calculate_meteor_impact d v ρ a s la lo).moderate_damage_km
      = 10.0 * (calculate_meteor_impact d v ρ a s la lo).kinetic_energy_megatons ^ (0.33 : ℝ) := rfl

theorem light_damage_km_def (d v ρ a : ℝ) (s : String) (la lo : ℝ) :
    (calculate_meteor_impact d v ρ a s la lo).light_damage_km
      = 20.0 * (calculate_meteor_impact d v ρ a s la lo).kinetic_energy_megatons ^ (0.33 : ℝ) := rfl

theorem crater_diameter_km_def (d v ρ a : ℝ) (s : String) (la lo : ℝ) :
    (calculate_meteor_impact d v ρ a s la lo).crater_diameter_km
      = 2.0 * d ^ (0.78 : ℝ) * (v / 1000.0) ^ (0.44 : ℝ) * Real.sin (a * (π / 180)) / 1000.0 := rfl

theorem engine_severity_def (d v ρ a : ℝ) (s : String) (la lo : ℝ) :
    (calculate_meteor_impact d v ρ a s la lo).severity
      = impact_severity ((calculate_meteor_impact d v ρ a s la lo).kinetic_energy_megatons) := rfl

/-- C1: For every input to the impact engine, the destruction-zone radii (in
km) equal their closed forms in the megaton energy `E_mt`:
severe = 5·E_mt^0.33, moderate = 10·E_mt^0.33, light = 20·E_mt^0.33,
fireball = 0.28·E_mt^0.33 and total_destruction = 2·fireball. -/
theorem destruction_zones_closed_forms (d v ρ a : ℝ) (s : String) (la lo : ℝ) :
    (calculate_meteor_impact d v ρ a s la lo).severe_damage_km
        = 5.0 * (calculate_meteor_impact d v ρ a s la lo).kinetic_energy_megatons ^ (0.33 : ℝ)
    ∧ (calculate_meteor_impact d v ρ a s la lo).moderate_damage_km
        = 10.0 * (calculate_meteor_impact d v ρ a s la lo).kinetic_energy_megatons ^ (0.33 : ℝ)
    ∧ (calculate_meteor_impact d v ρ a s la lo).light_damage_km
        = 20.0 * (calculate_meteor_impact d v ρ a s la lo).kinetic_energy_megatons ^ (0.33 : ℝ)
    ∧ (calculate_meteor_impact d v ρ a s la lo).fireball_radius_km
        = 0.28 * (calculate_meteor_impact d v ρ a s la lo).kinetic_energy_megatons ^ (0.33 : ℝ)
    ∧ (calculate_meteor_impact d v ρ a s la lo).total_destruction_km
        = 2.0 * (calculate_meteor_impact d v ρ a s la lo).fireball_radius_km := by
  refine ⟨rfl, rfl, rfl, ?_, rfl⟩
  rw [fireball_radius_km_def]
  exact mul_div_cancel_right₀ _ (by norm_num)

/-- C4: the material density lookup never fails: it is a total function,
depends on its argument only through its lower-cased form (hence is
case-insensitive, e.g. on "IRON" vs "iron"), and every name whose lower-cased
form is not in the registry resolves to the stone density (e.g.
"unobtainium"). -/
theorem get_density_case_insensitive_fallback :
    (∀ s t : String, str_lower s = str_lower t → get_density s = get_density t)
    ∧ (∀ s : String, (MATERIALS.lookup (str_lower s)).isNone →
        get_density s = get_density "stone")
    ∧ get_density "IRON" = get_density "iron"
    ∧ get_density "unobtainium" = get_density "stone" := by
  refine ⟨?_, ?_, rfl, rfl⟩
  · intro s t h
    unfold get_density
    rw [h]
  · intro s h
    unfold get_density
    rw [Option.isNone_iff_eq_none.mp h]
    rfl

/-- Witness for C4 at the concrete inputs of the claim. -/
theorem get_density_case_insensitive_fallback_witness :
    (str_lower "IRON" = str_lower "iron"
      ∧ get_density "IRON" = get_density "iron")
    ∧ ((MATERIALS.lookup (str_lower "unobtainium")).isNone
      ∧ get_density "unobtainium" = get_density "stone") :=
  ⟨⟨rfl, get_density_case_insensitive_fallback.1 "IRON" "iron" rfl⟩,
   ⟨rfl, get_density_case_insensitive_fallback.2.1 "unobtainium" rfl⟩⟩

/-- C2: for every engine input whose megaton energy is positive, the
destruction-zone radii satisfy
light ≥ moderate ≥ severe ≥ total_destruction ≥ 0, with
light > moderate > severe strict. -/
theorem destruction_zones_ordered (d v ρ a : ℝ) (s : String) (la lo : ℝ)
    (h : 0 < (calculate_meteor_impact d v ρ a s la lo).kinetic_energy_megatons) :
    (calculate_meteor_impact d v ρ a s la lo).light_damage_km
        ≥ (calculate_meteor_impact d v ρ a s la lo).moderate_damage_km
    ∧ (calculate_meteor_impact d v ρ a s la lo).moderate_damage_km
        ≥ (calculate_meteor_impact d v ρ a s la lo).severe_damage_km
    ∧ (calculate_meteor_impact d v ρ a s la lo).severe_damage_km
        ≥ (calculate_meteor_impact d v ρ a s la lo).total_destruction_km
    ∧ (calculate_meteor_impact d v ρ a s la lo).total_destruction_km ≥ 0
    ∧ (calculate_meteor_impact d v ρ a s la lo).light_damage_km
        > (calculate_meteor_impact d v ρ a s la lo).moderate_damage_km
    ∧ (calculate_meteor_impact d v ρ a s la lo).moderate_damage_km
        > (calculate_meteor_impact d v ρ a s la lo).severe_damage_km := by
  have hx : (0 : ℝ)
      < (calculate_meteor_impact d v ρ a s la lo).kinetic_energy_megatons ^ (0.33 : ℝ) :=
    Real.rpow_pos_of_pos h _
  rw [light_damage_km_def, moderate_damage_km_def, severe_damage_km_def,
    total_destruction_km_def]
  refine ⟨by linarith, by linarith, by linarith, by linarith, by linarith, by linarith⟩

/-- Witness for C2 at the default-parameter input, whose megaton energy is
positive. -/
theorem destruction_zones_ordered_witness :
    0 < (calculate_meteor_impact 1000 20000 3000 45 "land" 0 0).kinetic_energy_megatons
    ∧ (calculate_meteor_impact 1000 20000 3000 45 "land" 0 0).light_damage_km
        ≥ (calculate_meteor_impact 1000 20000 3000 45 "land" 0 0).moderate_damage_km := by
  have h : 0 < (calculate_meteor_impact 1000 20000 3000 45 "land" 0 0).kinetic_energy_megatons := by
    rw [kinetic_energy_megatons_def]
    positivity
  exact ⟨h, (destruction_zones_ordered 1000 20000 3000 45 "land" 0 0 h).1⟩

/-- Counterexample to C3 as stated: at the boundary energy of exactly
1 megaton the code's strict `<` sends the input to "significant", the
HIGHER-severity bucket, not to "minor" as the claim requires. -/
theorem severity_boundary_counterexample :
    impact_severity 1 = "significant" ∧ impact_severity 1 ≠ "minor" := by
  have h : impact_severity 1 = "significant" := by
    unfold impact_severity
    norm_num
  exact ⟨h, by rw [h]; decide⟩

/-- C3 (amended): severity classification is a total, non-overlapping step
function of megaton energy with thresholds 1, 100, 10000 and 1e8, and an
energy exactly equal to a boundary falls into the HIGHER-severity bucket;
the engine's severity field is exactly this function of its megaton energy. -/
theorem severity_step_function (e d v ρ a : ℝ) (s : String) (la lo : ℝ) :
    (e < 1 → impact_severity e = "minor")
    ∧ (1 ≤ e → e < 100 → impact_severity e = "significant")
    ∧ (100 ≤ e → e < 10000 → impact_severity e = "catastrophic")
    ∧ (10000 ≤ e → e < 100000000 → impact_severity e = "extinction-level")
    ∧ (100000000 ≤ e → impact_severity e = "planet-killer")
    ∧ (calculate_meteor_impact d v ρ a s la lo).severity
        = impact_severity ((calculate_meteor_impact d v ρ a s la lo).kinetic_energy_megatons) := by
  refine ⟨?_, ?_, ?_, ?_, ?_, rfl⟩
  · intro h1
    unfold impact_severity
    rw [if_pos h1]
  · intro h1 h2
    unfold impact_severity
    rw [if_neg (by linarith), if_pos h2]
  · intro h1 h2
    unfold impact_severity
    rw [if_neg (by linarith), if_neg (by linarith), if_pos h2]
  · intro h1 h2
    unfold impact_severity
    rw [if_neg (by linarith), if_neg (by linarith), if_neg (by linarith), if_pos h2]
  · intro h1
    unfold impact_severity
    rw [if_neg (by linarith), if_neg (by linarith), if_neg (by linarith),
      if_neg (by linarith)]

/-- Witness for C3 (amended) at the four boundary energies. -/
theorem severity_step_function_witness :
    impact_severity 1 = "significant" ∧ impact_severity 100 = "catastrophic"
    ∧ impact_severity 10000 = "extinction-level"
    ∧ impact_severity 100000000 = "planet-killer" :=
  ⟨(severity_step_function 1 0 0 0 0 "land" 0 0).2.1 (by norm_num) (by norm_num),
   (severity_step_function 100 0 0 0 0 "land" 0 0).2.2.1 (by norm_num) (by norm_num),
   (severity_step_function 10000 0 0 0 0 "land" 0 0).2.2.2.1 (by norm_num) (by norm_num),
   (severity_step_function 100000000 0 0 0 0 "land" 0 0).2.2.2.2.1 (by norm_num)⟩

/-- C7: for positive diameter, velocity and density the engine's mass and
kinetic energy are positive, and strictly increasing any one of the three
inputs while holding the other two fixed strictly increases the kinetic
energy. -/
theorem energy_positive_strict_monotone (d v ρ a : ℝ) (s : String) (la lo : ℝ)
    (hd : 0 < d) (hv : 0 < v) (hρ : 0 < ρ) :
    0 < (calculate_meteor_impact d v ρ a s la lo).meteor_mass_kg
    ∧ 0 < (calculate_meteor_impact d v ρ a s la lo).kinetic_energy_joules
    ∧ (∀ d2, d < d2 →
        (calculate_meteor_impact d v ρ a s la lo).kinetic_energy_joules
          < (calculate_meteor_impact d2 v ρ a s la lo).kinetic_energy_joules)
    ∧ (∀ v2, v < v2 →
        (calculate_meteor_impact d v ρ a s la lo).kinetic_energy_joules
          < (calculate_meteor_impact d v2 ρ a s la lo).kinetic_energy_joules)
    ∧ (∀ ρ2, ρ < ρ2 →
        (calculate_meteor_impact d v ρ a s la lo).kinetic_energy_joules
          < (calculate_meteor_impact d v ρ2 a s la lo).kinetic_energy_joules) := by
  refine ⟨?_, ?_, ?_, ?_, ?_⟩
  · rw [meteor_mass_kg_def]
    positivity
  · rw [kinetic_energy_joules_def]
    positivity
  · intro d2 h2
    rw [kinetic_energy_joules_def, kinetic_energy_joules_def]
    gcongr
  · intro v2 h2
    rw [kinetic_energy_joules_def, kinetic_energy_joules_def]
    gcongr
  · intro ρ2 h2
    rw [kinetic_energy_joules_def, kinetic_energy_joules_def]
    gcongr

/-- Witness for C7 at diameter 1000, velocity 20000, density 3000. -/
theorem energy_positive_strict_monotone_witness :
    ((0:ℝ) < 1000 ∧ (0:ℝ) < 20000 ∧ (0:ℝ) < 3000)
    ∧ 0 < (calculate_meteor_impact 1000 20000 3000 45 "land" 0 0).meteor_mass_kg :=
  ⟨⟨by norm_num, by norm_num, by norm_num⟩,
   (energy_positive_strict_monotone 1000 20000 3000 45 "land" 0 0
     (by norm_num) (by norm_num) (by norm_num)).1⟩

/-- C8: the engine is total on numerically valid inputs — for every input it
returns a fully populated result whose severity is one of the five defined
labels — and a zero diameter yields zero mass and zero energy, with `0` raised
to the positive exponents `0.33` and `0.78` evaluating to `0`, so that all
energy-derived radii vanish as well. -/
theorem engine_total_zero_diameter (d v ρ a : ℝ) (s : String) (la lo : ℝ) :
    ((calculate_meteor_impact d v ρ a s la lo).severity = "minor"
      ∨ (calculate_meteor_impact d v ρ a s la lo).severity = "significant"
      ∨ (calculate_meteor_impact d v ρ a s la lo).severity = "catastrophic"
      ∨ (calculate_meteor_impact d v ρ a s la lo).severity = "extinction-level"
      ∨ (calculate_meteor_impact d v ρ a s la lo).severity = "planet-killer")
    ∧ (0 : ℝ) ^ (0.33 : ℝ) = 0
    ∧ (0 : ℝ) ^ (0.78 : ℝ) = 0
    ∧ (calculate_meteor_impact 0 v ρ a s la lo).meteor_mass_kg = 0
    ∧ (calculate_meteor_impact 0 v ρ a s la lo).kinetic_energy_joules = 0
    ∧ (calculate_meteor_impact 0 v ρ a s la lo).kinetic_energy_megatons = 0
    ∧ (calculate_meteor_impact 0 v ρ a s la lo).fireball_radius_km = 0
    ∧ (calculate_meteor_impact 0 v ρ a s la lo).severe_damage_km = 0
    ∧ (calculate_meteor_impact 0 v ρ a s la lo).moderate_damage_km = 0
    ∧ (calculate_meteor_impact 0 v ρ a s la lo).light_damage_km = 0
    ∧ (calculate_meteor_impact 0 v ρ a s la lo).total_destruction_km = 0
    ∧ (calculate_meteor_impact 0 v ρ a s la lo).crater_diameter_km = 0 := by
  have h033 : (0 : ℝ) ^ (0.33 : ℝ) = 0 := Real.zero_rpow (by norm_num)
  have h078 : (0 : ℝ) ^ (0.78 : ℝ) = 0 := Real.zero_rpow (by norm_num)
  have hEM : (calculate_meteor_impact 0 v ρ a s la lo).kinetic_energy_megatons = 0 := by
    rw [kinetic_energy_megatons_def]
    norm_num
  refine ⟨?_, h033, h078, ?_, ?_, hEM, ?_, ?_, ?_, ?_, ?_, ?_⟩
  · rw [engine_severity_def]
    unfold impact_severity
    split_ifs <;> simp
  · rw [meteor_mass_kg_def]
    norm_num
  · rw [kinetic_energy_joules_def]
    norm_num
  · rw [fireball_radius_km_def, hEM, h033]
    norm_num
  · rw [severe_damage_km_def, hEM, h033]
    norm_num
  · rw [moderate_damage_km_def, hEM, h033]
    norm_num
  · rw [light_damage_km_def, hEM, h033]
    norm_num
  · rw [total_destruction_km_def, hEM, h033]
    norm_num
  · rw [crater_diameter_km_def, h078]
    norm_num

/-- C9: the two impact-calculation implementations diverge: there is an engine
input for which the legacy `calculate_destruction_radius`, fed the very
kinetic energy the engine computed, returns a total-destruction radius
different from the engine's. -/
theorem engine_legacy_divergence :
    ∃ (d v ρ a : ℝ) (s : String) (la lo : ℝ),
      (calculate_destruction_radius
          ((calculate_meteor_impact d v ρ a s la lo).kinetic_energy_joules)).total_destruction
        ≠ (calculate_meteor_impact d v ρ a s la lo).total_destruction_km := by
  refine ⟨1000, 20000, 3000, 45, "land", 0, 0, ?_⟩
  have h1 : 1 ≤ (calculate_meteor_impact 1000 20000 3000 45 "land" 0 0).kinetic_energy_megatons := by
    rw [kinetic_energy_megatons_def]
    nlinarith [Real.pi_gt_three]
  have hx : (0 : ℝ)
      < (calculate_meteor_impact 1000 20000 3000 45 "land" 0 0).kinetic_energy_megatons := by
    linarith
  have hL : (calculate_destruction_radius
        ((calculate_meteor_impact 1000 20000 3000 45 "land" 0 0).kinetic_energy_joules)).total_destruction
      = Real.sqrt ((calculate_meteor_impact 1000 20000 3000 45 "land" 0 0).kinetic_energy_megatons)
          * 2.5 := rfl
  have key : (calculate_meteor_impact 1000 20000 3000 45 "land" 0 0).total_destruction_km
      < (calculate_destruction_radius
          ((calculate_meteor_impact 1000 20000 3000 45 "land" 0 0).kinetic_energy_joules)).total_destruction := by
    rw [hL, total_destruction_km_def, Real.sqrt_eq_rpow]
    have h2 : (calculate_meteor_impact 1000 20000 3000 45 "land" 0 0).kinetic_energy_megatons ^ (0.33 : ℝ)
        ≤ (calculate_meteor_impact 1000 20000 3000 45 "land" 0 0).kinetic_energy_megatons ^ ((1 : ℝ) / 2) :=
      Real.rpow_le_rpow_of_exponent_le h1 (by norm_num)
    have h3 : (0 : ℝ)
        < (calculate_meteor_impact 1000 20000 3000 45 "land" 0 0).kinetic_energy_megatons ^ (0.33 : ℝ) :=
      Real.rpow_pos_of_pos hx _
    linarith
  exact ne_of_gt key

/-! ### Helper lemmas about `pyInt` and zone areas -/

theorem pyInt_zero : pyInt 0 = 0 := by
  unfold pyInt
  rw [if_pos le_rfl]
  exact Int.floor_zero

theorem pyInt_eq_zero_of_eq_zero {x : ℝ} (h : x = 0) : pyInt x = 0 := by
  rw [h]
  exact pyInt_zero

theorem pyInt_nonneg {x : ℝ} (h : 0 ≤ x) : 0 ≤ pyInt x := by
  unfold pyInt
  rw [if_pos h]
  exact Int.floor_nonneg.mpr h

theorem zone_area_nonneg {o i : ℝ} (hi : 0 ≤ i) (hio : i ≤ o) :
    0 ≤ calculate_zone_area o i := by
  unfold calculate_zone_area
  have h2 : i ^ 2 ≤ o ^ 2 := by nlinarith
  nlinarith [Real.pi_pos]

theorem zone_nonneg_counts {p : ℝ} (hp : 0 ≤ p) (rate irate : ℝ) (hr0 : 0 ≤ rate)
    (hr1 : rate ≤ 1) (hi : 0 ≤ irate) :
    0 ≤ pyInt (p * rate) ∧ 0 ≤ pyInt ((p - p * rate) * irate) ∧ 0 ≤ pyInt p :=
  ⟨pyInt_nonneg (mul_nonneg hp hr0),
   pyInt_nonneg (mul_nonneg (by nlinarith) hi),
   pyInt_nonneg hp⟩

/-- Counterexample to C5 as stated: with all zone radii 1 and population
density -1 (which is ≤ 0), the fireball-zone death count is -3, not 0. -/
theorem casualties_negative_density_counterexample :
    (calculate_casualties ⟨1, 1, 1, 1, 1⟩ (-1)).deaths_fireball = -3
    ∧ (calculate_casualties ⟨1, 1, 1, 1, 1⟩ (-1)).deaths_fireball ≠ 0 := by
  have h : (calculate_casualties ⟨1, 1, 1, 1, 1⟩ (-1)).deaths_fireball = -3 := by
    show pyInt (calculate_zone_area (1 : ℝ) 0 * (-1) * 1.00) = -3
    have harea : calculate_zone_area (1 : ℝ) 0 = π := by
      unfold calculate_zone_area
      norm_num
    rw [harea]
    have hval : π * (-1) * 1.00 = -π := by ring
    rw [hval]
    unfold pyInt
    rw [if_neg (not_le.mpr (by linarith [Real.pi_pos] : (-π : ℝ) < 0))]
    rw [Int.ceil_eq_iff]
    constructor
    · push_cast
      linarith [Real.pi_lt_d2]
    · push_cast
      linarith [Real.pi_gt_three]
  exact ⟨h, by rw [h]; decide⟩

/-- C5 (amended): for every zones input and population density exactly 0, the
casualty estimator raises no error and returns all-zero output: every per-zone
death and injury count and every total is zero. -/
theorem casualties_zero_density (z : DestructionZones) :
    (calculate_casualties z 0).deaths_fireball = 0
    ∧ (calculate_casualties z 0).deaths_total_destruction = 0
    ∧ (calculate_casualties z 0).deaths_severe_damage = 0
    ∧ (calculate_casualties z 0).deaths_moderate_damage = 0
    ∧ (calculate_casualties z 0).deaths_light_damage = 0
    ∧ (calculate_casualties z 0).injuries_fireball = 0
    ∧ (calculate_casualties z 0).injuries_total_destruction = 0
    ∧ (calculate_casualties z 0).injuries_severe_damage = 0
    ∧ (calculate_casualties z 0).injuries_moderate_damage = 0
    ∧ (calculate_casualties z 0).injuries_light_damage = 0
    ∧ (calculate_casualties z 0).total_deaths = 0
    ∧ (calculate_casualties z 0).total_injuries = 0
    ∧ (calculate_casualties z 0).total_affected = 0 := by
  have t1 : pyInt (calculate_zone_area z.fireball 0 * 0 * 1.00) = 0 :=
    pyInt_eq_zero_of_eq_zero (by ring)
  have t2 : pyInt (calculate_zone_area z.total_destruction z.fireball * 0 * 0.98) = 0 :=
    pyInt_eq_zero_of_eq_zero (by ring)
  have t3 : pyInt (calculate_zone_area z.severe_damage z.total_destruction * 0 * 0.70) = 0 :=
    pyInt_eq_zero_of_eq_zero (by ring)
  have t4 : pyInt (calculate_zone_area z.moderate_damage z.severe_damage * 0 * 0.30) = 0 :=
    pyInt_eq_zero_of_eq_zero (by ring)
  have t5 : pyInt (calculate_zone_area z.light_damage z.moderate_damage * 0 * 0.05) = 0 :=
    pyInt_eq_zero_of_eq_zero (by ring)
  have u1 : pyInt ((calculate_zone_area z.fireball 0 * 0
      - calculate_zone_area z.fireball 0 * 0 * 1.00) * 0.00) = 0 :=
    pyInt_eq_zero_of_eq_zero (by ring)
  have u2 : pyInt ((calculate_zone_area z.total_destruction z.fireball * 0
      - calculate_zone_area z.total_destruction z.fireball * 0 * 0.98) * 0.95) = 0 :=
    pyInt_eq_zero_of_eq_zero (by ring)
  have u3 : pyInt ((calculate_zone_area z.severe_damage z.total_destruction * 0
      - calculate_zone_area z.severe_damage z.total_destruction * 0 * 0.70) * 0.85) = 0 :=
    pyInt_eq_zero_of_eq_zero (by ring)
  have u4 : pyInt ((calculate_zone_area z.moderate_damage z.severe_damage * 0
      - calculate_zone_area z.moderate_damage z.severe_damage * 0 * 0.30) * 0.60) = 0 :=
    pyInt_eq_zero_of_eq_zero (by ring)
  have u5 : pyInt ((calculate_zone_area z.light_damage z.moderate_damage * 0
      - calculate_zone_area z.light_damage z.moderate_damage * 0 * 0.05) * 0.40) = 0 :=
    pyInt_eq_zero_of_eq_zero (by ring)
  have p1 : pyInt (calculate_zone_area z.fireball 0 * 0) = 0 :=
    pyInt_eq_zero_of_eq_zero (by ring)
  have p2 : pyInt (calculate_zone_area z.total_destruction z.fireball * 0) = 0 :=
    pyInt_eq_zero_of_eq_zero (by ring)
  have p3 : pyInt (calculate_zone_area z.severe_damage z.total_destruction * 0) = 0 :=
    pyInt_eq_zero_of_eq_zero (by ring)
  have p4 : pyInt (calculate_zone_area z.moderate_damage z.severe_damage * 0) = 0 :=
    pyInt_eq_zero_of_eq_zero (by ring)
  have p5 : pyInt (calculate_zone_area z.light_damage z.moderate_damage * 0) = 0 :=
    pyInt_eq_zero_of_eq_zero (by ring)
  refine ⟨t1, t2, t3, t4, t5, u1, u2, u3, u4, u5, ?_, ?_, ?_⟩
  · show pyInt (calculate_zone_area z.fireball 0 * 0 * 1.00)
        + pyInt (calculate_zone_area z.total_destruction z.fireball * 0 * 0.98)
        + pyInt (calculate_zone_area z.severe_damage z.total_destruction * 0 * 0.70)
        + pyInt (calculate_zone_area z.moderate_damage z.severe_damage * 0 * 0.30)
        + pyInt (calculate_zone_area z.light_damage z.moderate_damage * 0 * 0.05) = 0
    rw [t1, t2, t3, t4, t5]
    norm_num
  · show pyInt ((calculate_zone_area z.fireball 0 * 0
          - calculate_zone_area z.fireball 0 * 0 * 1.00) * 0.00)
        + pyInt ((calculate_zone_area z.total_destruction z.fireball * 0
          - calculate_zone_area z.total_destruction z.fireball * 0 * 0.98) * 0.95)
        + pyInt ((calculate_zone_area z.severe_damage z.total_destruction * 0
          - calculate_zone_area z.severe_damage z.total_destruction * 0 * 0.70) * 0.85)
        + pyInt ((calculate_zone_area z.moderate_damage z.severe_damage * 0
          - calculate_zone_area z.moderate_damage z.severe_damage * 0 * 0.30) * 0.60)
        + pyInt ((calculate_zone_area z.light_damage z.moderate_damage * 0
          - calculate_zone_area z.light_damage z.moderate_damage * 0 * 0.05) * 0.40) = 0
    rw [u1, u2, u3, u4, u5]
    norm_num
  · show pyInt (calculate_zone_area z.fireball 0 * 0)
        + pyInt (calculate_zone_area z.total_destruction z.fireball * 0)
        + pyInt (calculate_zone_area z.severe_damage z.total_destruction * 0)
        + pyInt (calculate_zone_area z.moderate_damage z.severe_damage * 0)
        + pyInt (calculate_zone_area z.light_damage z.moderate_damage * 0) = 0
    rw [p1, p2, p3, p4, p5]
    norm_num

/-- Counterexample to C6 as stated: zones with fireball radius 2 but
total-destruction radius 1 (inner > outer) and density 1 give a negative
total-destruction death count — the code does not clamp negative annular
areas. -/
theorem casualties_negative_area_counterexample :
    (calculate_casualties ⟨1, 1, 1, 1, 2⟩ 1).deaths_total_destruction < 0 := by
  show pyInt (calculate_zone_area (1 : ℝ) 2 * 1 * 0.98) < 0
  have hval : calculate_zone_area (1 : ℝ) 2 * 1 * 0.98 = -(2.94 * π) := by
    unfold calculate_zone_area
    ring
  rw [hval]
  unfold pyInt
  rw [if_neg (not_le.mpr (by nlinarith [Real.pi_pos] : (-(2.94 * π) : ℝ) < 0))]
  have hle := Int.ceil_le.mpr
    (show -(2.94 * π) ≤ ((-1 : ℤ) : ℝ) by push_cast; nlinarith [Real.pi_gt_three])
  exact lt_of_le_of_lt hle (by norm_num)

/-- C6 (amended): when the zone radii are properly nested
(0 ≤ fireball ≤ total_destruction ≤ severe ≤ moderate ≤ light) and the
population density is non-negative, every death and injury count (and every
total) returned by the casualty estimator is non-negative. The code performs
no clamping, so for inverted radii counts can be negative (see the
counterexample). -/
theorem casualties_nonneg_of_nested (z : DestructionZones) (density : ℝ)
    (hd : 0 ≤ density) (h0 : 0 ≤ z.fireball)
    (h1 : z.fireball ≤ z.total_destruction)
    (h2 : z.total_destruction ≤ z.severe_damage)
    (h3 : z.severe_damage ≤ z.moderate_damage)
    (h4 : z.moderate_damage ≤ z.light_damage) :
    0 ≤ (calculate_casualties z density).deaths_fireball
    ∧ 0 ≤ (calculate_casualties z density).deaths_total_destruction
    ∧ 0 ≤ (calculate_casualties z density).deaths_severe_damage
    ∧ 0 ≤ (calculate_casualties z density).deaths_moderate_damage
    ∧ 0 ≤ (calculate_casualties z density).deaths_light_damage
    ∧ 0 ≤ (calculate_casualties z density).injuries_fireball
    ∧ 0 ≤ (calculate_casualties z density).injuries_total_destruction
    ∧ 0 ≤ (calculate_casualties z density).injuries_severe_damage
    ∧ 0 ≤ (calculate_casualties z density).injuries_moderate_damage
    ∧ 0 ≤ (calculate_casualties z density).injuries_light_damage
    ∧ 0 ≤ (calculate_casualties z density).total_deaths
    ∧ 0 ≤ (calculate_casualties z density).total_injuries
    ∧ 0 ≤ (calculate_casualties z density).total_affected := by
  have hAF : 0 ≤ calculate_zone_area z.fireball 0 := zone_area_nonneg le_rfl h0
  have hAT : 0 ≤ calculate_zone_area z.total_destruction z.fireball := zone_area_nonneg h0 h1
  have hAS : 0 ≤ calculate_zone_area z.severe_damage z.total_destruction :=
    zone_area_nonneg (h0.trans h1) h2
  have hAM : 0 ≤ calculate_zone_area z.moderate_damage z.severe_damage :=
    zone_area_nonneg ((h0.trans h1).trans h2) h3
  have hAL : 0 ≤ calculate_zone_area z.light_damage z.moderate_damage :=
    zone_area_nonneg (((h0.trans h1).trans h2).trans h3) h4
  have ZF := zone_nonneg_counts (mul_nonneg hAF hd) 1.00 0.00
    (by norm_num) (by norm_num) (by norm_num)
  have ZT := zone_nonneg_counts (mul_nonneg hAT hd) 0.98 0.95
    (by norm_num) (by norm_num) (by norm_num)
  have ZS := zone_nonneg_counts (mul_nonneg hAS hd) 0.70 0.85
    (by norm_num) (by norm_num) (by norm_num)
  have ZM := zone_nonneg_counts (mul_nonneg hAM hd) 0.30 0.60
    (by norm_num) (by norm_num) (by norm_num)
  have ZL := zone_nonneg_counts (mul_nonneg hAL hd) 0.05 0.40
    (by norm_num) (by norm_num) (by norm_num)
  exact ⟨ZF.1, ZT.1, ZS.1, ZM.1, ZL.1, ZF.2.1, ZT.2.1, ZS.2.1, ZM.2.1, ZL.2.1,
    add_nonneg (add_nonneg (add_nonneg (add_nonneg ZF.1 ZT.1) ZS.1) ZM.1) ZL.1,
    add_nonneg (add_nonneg (add_nonneg (add_nonneg ZF.2.1 ZT.2.1) ZS.2.1) ZM.2.1) ZL.2.1,
    add_nonneg (add_nonneg (add_nonneg (add_nonneg ZF.2.2 ZT.2.2) ZS.2.2) ZM.2.2) ZL.2.2⟩

/-- Witness for C6 (amended) on properly nested concrete zones. -/
theorem casualties_nonneg_of_nested_witness :
    ((0 : ℝ) ≤ 1
      ∧ (0 : ℝ) ≤ (⟨1, 2, 3, 4, 0.5⟩ : DestructionZones).fireball
      ∧ (⟨1, 2, 3, 4, 0.5⟩ : DestructionZones).fireball
          ≤ (⟨1, 2, 3, 4, 0.5⟩ : DestructionZones).total_destruction
      ∧ (⟨1, 2, 3, 4, 0.5⟩ : DestructionZones).total_destruction
          ≤ (⟨1, 2, 3, 4, 0.5⟩ : DestructionZones).severe_damage
      ∧ (⟨1, 2, 3, 4, 0.5⟩ : DestructionZones).severe_damage
          ≤ (⟨1, 2, 3, 4, 0.5⟩ : DestructionZones).moderate_damage
      ∧ (⟨1, 2, 3, 4, 0.5⟩ : DestructionZones).moderate_damage
          ≤ (⟨1, 2, 3, 4, 0.5⟩ : DestructionZones).light_damage)
    ∧ 0 ≤ (calculate_casualties ⟨1, 2, 3, 4, 0.5⟩ 1).deaths_fireball := by
  refine ⟨⟨by norm_num, ?_, ?_, ?_, ?_, ?_⟩, ?_⟩
  · show (0 : ℝ) ≤ 0.5
    norm_num
  · show (0.5 : ℝ) ≤ 1
    norm_num
  · show (1 : ℝ) ≤ 2
    norm_num
  · show (2 : ℝ) ≤ 3
    norm_num
  · show (3 : ℝ) ≤ 4
    norm_num
  · exact (casualties_nonneg_of_nested ⟨1, 2, 3, 4, 0.5⟩ 1 (by norm_num)
      (by show (0 : ℝ) ≤ 0.5; norm_num) (by show (0.5 : ℝ) ≤ 1; norm_num)
      (by show (1 : ℝ) ≤ 2; norm_num) (by show (2 : ℝ) ≤ 3; norm_num)
      (by show (3 : ℝ) ≤ 4; norm_num)).1

/-- C10: at energy 4.184e5 J (one ten-billionth of a megaton), the legacy
`calculate_destruction_radius` returns a fireball radius (5e-5 km) larger
than its total-destruction radius (2.5e-5 km); the resulting
total-destruction annulus has negative area, and feeding these zones to
`calculate_casualties` with population density 1e10 yields a negative death
count for that zone. -/
theorem legacy_fireball_exceeds_total_negative_deaths :
    (calculate_destruction_radius 418400).fireball
        > (calculate_destruction_radius 418400).total_destruction
    ∧ calculate_zone_area (calculate_destruction_radius 418400).total_destruction
        (calculate_destruction_radius 418400).fireball < 0
    ∧ (calculate_casualties (calculate_destruction_radius 418400) 1e10).deaths_total_destruction
        < 0 := by
  have hEM : (418400 : ℝ) / 4.184e15 = 1e-10 := by norm_num
  have key04 : ((1e-10 : ℝ)) ^ (0.4 : ℝ) = 1e-4 := by
    have hbase : (1e-10 : ℝ) = (1e-2 : ℝ) ^ ((5 : ℕ) : ℝ) := by
      rw [Real.rpow_natCast]
      norm_num
    rw [hbase, ← Real.rpow_mul (by norm_num : (0 : ℝ) ≤ (1e-2 : ℝ))]
    have hexp : ((5 : ℕ) : ℝ) * (0.4 : ℝ) = ((2 : ℕ) : ℝ) := by norm_num
    rw [hexp, Real.rpow_natCast]
    norm_num
  have keysqrt : Real.sqrt (1e-10 : ℝ) = 1e-5 := by
    rw [show (1e-10 : ℝ) = (1e-5 : ℝ) ^ 2 by norm_num]
    exact Real.sqrt_sq (by norm_num)
  have hfb : (calculate_destruction_radius 418400).fireball = 5e-5 := by
    show ((418400 : ℝ) / 4.184e15) ^ (0.4 : ℝ) * 0.5 = 5e-5
    rw [hEM, key04]
    norm_num
  have htd : (calculate_destruction_radius 418400).total_destruction = 2.5e-5 := by
    show Real.sqrt ((418400 : ℝ) / 4.184e15) * 2.5 = 2.5e-5
    rw [hEM, keysqrt]
    norm_num
  refine ⟨by rw [hfb, htd]; norm_num, ?_, ?_⟩
  · unfold calculate_zone_area
    rw [hfb, htd]
    have hneg : ((2.5e-5 : ℝ) ^ 2 - (5e-5 : ℝ) ^ 2) < 0 := by norm_num
    exact mul_neg_of_pos_of_neg Real.pi_pos hneg
  · show pyInt (calculate_zone_area (calculate_destruction_radius 418400).total_destruction
        (calculate_destruction_radius 418400).fireball * 1e10 * 0.98) < 0
    have hval : calculate_zone_area (calculate_destruction_radius 418400).total_destruction
        (calculate_destruction_radius 418400).fireball * 1e10 * 0.98 = -(18.375 * π) := by
      unfold calculate_zone_area
      rw [hfb, htd]
      ring
    rw [hval]
    unfold pyInt
    rw [if_neg (not_le.mpr (by nlinarith [Real.pi_pos] : (-(18.375 * π) : ℝ) < 0))]
    have hle := Int.ceil_le.mpr
      (show -(18.375 * π) ≤ ((-1 : ℤ) : ℝ) by push_cast; nlinarith [Real.pi_gt_three])
    exact lt_of_le_of_lt hle (by norm_num)

end PlanetKiller
